import Mathlib

/-!
Verification development for the test-reporting facility of the repository
(`src/tests/utils/data_utils.py`, class `TestReporter`).

The Python class is embedded shallowly:
* a JSON-serializable value is the inductive `Json`; a Python `dict` used for
  the `details` argument is a `List (String × Json)` (key/value pairs in
  insertion order);
* `None` is `Option.none`; Python truthiness of an `Optional[str]` is
  `strTruthy` (false exactly on `None` and the empty string), and truthiness
  of a dict is falseness of the list, so `details or \x7b\x7d` is
  `details.getD []`;
* floats (`duration`, the computed rates) are modelled as exact rationals `ℚ`;
* `datetime.now()` is an explicit `String` argument threaded to each
  operation that reads the clock;
* the mutation performed by a method becomes explicit state passing: a method
  returns the new `TestReporter` (for `save_results`, paired with the report
  artifact it writes; for `print_summary`, the list of printed lines replaces
  the console side effect);
* `json.dump` / reloading are modelled at the JSON-tree level by
  `TestResult.toJson` / `TestResult.fromJson` (the text layer is injective on
  these trees, so tree-level round-tripping captures round-trip fidelity
  "within what the serialization format supports").
-/

/-- A JSON value, the codomain of Python's `json.dump` serialization. -/
inductive Json : Type where
  | null : Json
  | bool : Bool → Json
  | num : ℚ → Json
  | str : String → Json
  | arr : List Json → Json
  | obj : List (String × Json) → Json

/-- Key lookup in a JSON object (first match, insertion order), for reading
back a persisted artifact. -/
def Json.getKey : Json → String → Option Json
  | Json.obj kvs, k => kvs.lookup k
  | _, _ => none

/-- Python truthiness of an `Optional[str]`: `if error:` is true exactly when
`error` is neither `None` nor the empty string. -/
def strTruthy : Option String → Bool
  | none => false
  | some s => s ≠ ""

/-- One element of `TestReporter.results` — the dict built by `add_result`:
`\x7b"test_name", "status", "duration", "timestamp", "error", "details"\x7d`.
The `details` slot holds a dict after `add_result` (because of
`details or \x7b\x7d`), but the slot itself is `Option`-typed so that the
model can state that it is never `None`. -/
structure TestResult : Type where
  test_name : String
  status : String
  duration : ℚ
  timestamp : String
  error : Option String
  details : Option (List (String × Json))

/-- One element of `test_summary["errors"]`: `\x7b"test": ..., "error": ...\x7d`. -/
structure ErrorEntry : Type where
  test : String
  error : String
deriving DecidableEq

/-- The mutable `self.test_summary` dict initialised in `__init__` and updated
by `add_result`. -/
structure TestSummary : Type where
  total_tests : Nat
  passed : Nat
  failed : Nat
  skipped : Nat
  errors : List ErrorEntry
deriving DecidableEq

/-- The state of a `TestReporter` instance: `self.results`, `self.start_time`,
`self.test_summary`. -/
structure TestReporter : Type where
  results : List TestResult
  start_time : String
  test_summary : TestSummary

/-- `TestReporter.__init__`: empty results, clock reading as start time,
zeroed summary. -/
def TestReporter.init (now : String) : TestReporter :=
  { results := []
    start_time := now
    test_summary := { total_tests := 0, passed := 0, failed := 0, skipped := 0, errors := [] } }

/-- `TestReporter.add_result(test_name, status, duration=0, error=None,
details=None)`: append the result dict, then update the summary counters.
`now` is the `datetime.now().isoformat()` reading taken inside the method. -/
def TestReporter.add_result (r : TestReporter) (test_name status : String)
    (duration : ℚ) (now : String) (error : Option String)
    (details : Option (List (String × Json))) : TestReporter :=
  let result : TestResult :=
    { test_name := test_name
      status := status
      duration := duration
      timestamp := now
      error := error
      details := some (details.getD []) }
  let s0 := r.test_summary
  let s1 : TestSummary := { s0 with total_tests := s0.total_tests + 1 }
  let s2 : TestSummary :=
    if status = "PASS" then
      { s1 with passed := s1.passed + 1 }
    else if status = "FAIL" then
      let sf : TestSummary := { s1 with failed := s1.failed + 1 }
      if strTruthy error then
        { sf with errors := sf.errors ++ [{ test := test_name, error := error.getD "" }] }
      else sf
    else if status = "SKIP" then
      { s1 with skipped := s1.skipped + 1 }
    else s1
  { r with results := r.results ++ [result], test_summary := s2 }

/-- The dict returned by `TestReporter.generate_summary`: the spread of
`self.test_summary` plus the derived timing and rate fields. -/
structure RunSummary : Type where
  total_tests : Nat
  passed : Nat
  failed : Nat
  skipped : Nat
  errors : List ErrorEntry
  total_duration : ℚ
  average_duration : ℚ
  pass_rate : ℚ
  start_time : String
  end_time : String

/-- `TestReporter.generate_summary`: `total_duration` is the sum of the
recorded durations; `average_duration` guards on `self.results` being
non-empty; `pass_rate` guards on `total_tests > 0`. `now` is the
`datetime.now().isoformat()` reading used for `end_time`. -/
def TestReporter.generate_summary (r : TestReporter) (now : String) : RunSummary :=
  let total_duration : ℚ := (r.results.map (fun t => t.duration)).sum
  { total_tests := r.test_summary.total_tests
    passed := r.test_summary.passed
    failed := r.test_summary.failed
    skipped := r.test_summary.skipped
    errors := r.test_summary.errors
    total_duration := total_duration
    average_duration := if r.results.isEmpty then 0 else total_duration / (r.results.length : ℚ)
    pass_rate :=
      if r.test_summary.total_tests > 0 then
        (r.test_summary.passed : ℚ) / (r.test_summary.total_tests : ℚ) * 100
      else 0
    start_time := r.start_time
    end_time := now }

/-- The `report_data` dict that `TestReporter.save_results` serializes:
`\x7b"summary": self.generate_summary(), "results": self.results\x7d`. -/
structure ReportData : Type where
  summary : RunSummary
  results : List TestResult

/-- `TestReporter.save_results`: builds `report_data` from the current state
and writes it out; the method reads but never mutates `self`, so the model
returns the written artifact together with the (unchanged) reporter state. -/
def TestReporter.save_results (r : TestReporter) (now : String) :
    ReportData × TestReporter :=
  ({ summary := r.generate_summary now, results := r.results }, r)

/-- JSON encoding of an `Optional[str]` slot under `json.dump`. -/
def encodeOptStr : Option String → Json
  | none => Json.null
  | some s => Json.str s

/-- Reading an `error` slot back from a parsed artifact. -/
def decodeOptStr : Json → Option (Option String)
  | Json.null => some none
  | Json.str s => some (some s)
  | _ => none

/-- JSON encoding of a `details` slot (a dict, or `None`) under `json.dump`. -/
def encodeDetails : Option (List (String × Json)) → Json
  | none => Json.null
  | some kvs => Json.obj kvs

/-- Reading a `details` slot back from a parsed artifact. -/
def decodeDetails : Json → Option (Option (List (String × Json)))
  | Json.null => some none
  | Json.obj kvs => some (some kvs)
  | _ => none

/-- `json.dump` on one element of `self.results` (field order as built by
`add_result`). -/
def TestResult.toJson (t : TestResult) : Json :=
  Json.obj
    [("test_name", Json.str t.test_name),
     ("status", Json.str t.status),
     ("duration", Json.num t.duration),
     ("timestamp", Json.str t.timestamp),
     ("error", encodeOptStr t.error),
     ("details", encodeDetails t.details)]

/-- Parsing one element of a persisted `results` array back into a
`TestResult` (the reload direction of the round trip). -/
def TestResult.fromJson (j : Json) : Option TestResult :=
  match j.getKey "test_name", j.getKey "status", j.getKey "duration",
        j.getKey "timestamp", j.getKey "error", j.getKey "details" with
  | some (Json.str n), some (Json.str st), some (Json.num d),
    some (Json.str ts), some e, some det =>
    match decodeOptStr e, decodeDetails det with
    | some e2, some det2 =>
      some { test_name := n, status := st, duration := d, timestamp := ts,
             error := e2, details := det2 }
    | _, _ => none
  | _, _, _, _, _, _ => none

/-- `json.dump` on the `summary` part of `report_data`. -/
def RunSummary.toJson (s : RunSummary) : Json :=
  Json.obj
    [("total_tests", Json.num (s.total_tests : ℚ)),
     ("passed", Json.num (s.passed : ℚ)),
     ("failed", Json.num (s.failed : ℚ)),
     ("skipped", Json.num (s.skipped : ℚ)),
     ("errors", Json.arr (s.errors.map (fun e =>
       Json.obj [("test", Json.str e.test), ("error", Json.str e.error)]))),
     ("total_duration", Json.num s.total_duration),
     ("average_duration", Json.num s.average_duration),
     ("pass_rate", Json.num s.pass_rate),
     ("start_time", Json.str s.start_time),
     ("end_time", Json.str s.end_time)]

/-- `json.dump(report_data, f)`: the persisted structured artifact, an object
with a `summary` key and a `results` key. -/
def ReportData.toJson (rd : ReportData) : Json :=
  Json.obj
    [("summary", rd.summary.toJson),
     ("results", Json.arr (rd.results.map TestResult.toJson))]

/-- Decimal-free rendering of a rational for console lines (the source uses
Python format specifiers such as `:.1f`; the exact digit formatting is
immaterial to every stated property). -/
def fmtRat (q : ℚ) : String :=
  toString q.num ++ "/" ++ toString q.den

/-- The loop body of `print_summary`'s error section:
`for error in summary['errors'][:5]: print(f"   • \x7berror['test']\x7d: \x7berror['error'][:100]\x7d...")`. -/
def errorLines (errors : List ErrorEntry) : List String :=
  (errors.take 5).map (fun e => "   • " ++ e.test ++ ": " ++ e.error.take 100 ++ "...")

/-- Separator line `"=" * 60`. -/
def sepLine : String := String.mk (List.replicate 60 '=')

/-- `TestReporter.print_summary`: the sequence of lines printed to the
console. The error header and the per-error lines are emitted only when
`summary['errors']` is non-empty. -/
def TestReporter.print_summary (r : TestReporter) (now : String) : List String :=
  let summary := r.generate_summary now
  ["", sepLine, "📊 TEST SUMMARY", sepLine,
   "✅ Passed: " ++ toString summary.passed,
   "❌ Failed: " ++ toString summary.failed,
   "⚠️ Skipped: " ++ toString summary.skipped,
   "📈 Pass Rate: " ++ fmtRat summary.pass_rate ++ "%",
   "⏱️ Total Duration: " ++ fmtRat summary.total_duration ++ "s"]
  ++ (if summary.errors.isEmpty then []
      else ("❌ ERRORS (" ++ toString summary.errors.length ++ "):") :: errorLines summary.errors)

/-- The argument tuple of one `add_result` call (with the clock reading the
call observes). -/
structure AddCall : Type where
  test_name : String
  status : String
  duration : ℚ
  now : String
  error : Option String
  details : Option (List (String × Json))

/-- Replaying a sequence of `add_result` calls against a reporter state. -/
def runCalls (r : TestReporter) (calls : List AddCall) : TestReporter :=
  calls.foldl
    (fun acc c => acc.add_result c.test_name c.status c.duration c.now c.error c.details)
    r

/-! ### Helper lemmas -/

theorem add_result_results (r : TestReporter) (n st : String) (d : ℚ)
    (now : String) (e : Option String) (det : Option (List (String × Json))) :
    (r.add_result n st d now e det).results =
      r.results ++ [{ test_name := n, status := st, duration := d,
                      timestamp := now, error := e,
                      details := some (det.getD []) }] := rfl

theorem add_result_total_tests (r : TestReporter) (n st : String) (d : ℚ)
    (now : String) (e : Option String) (det : Option (List (String × Json))) :
    (r.add_result n st d now e det).test_summary.total_tests =
      r.test_summary.total_tests + 1 := by
  unfold TestReporter.add_result
  dsimp only
  split
  · rfl
  · split
    · split <;> rfl
    · split <;> rfl

theorem add_result_start_time (r : TestReporter) (n st : String) (d : ℚ)
    (now : String) (e : Option String) (det : Option (List (String × Json))) :
    (r.add_result n st d now e det).start_time = r.start_time := rfl

theorem runCalls_cons (r : TestReporter) (c : AddCall) (cs : List AddCall) :
    runCalls r (c :: cs) =
      runCalls (r.add_result c.test_name c.status c.duration c.now c.error c.details) cs := rfl

theorem runCalls_results_length (r : TestReporter) (calls : List AddCall) :
    (runCalls r calls).results.length = r.results.length + calls.length := by
  induction calls generalizing r with
  | nil => simp [runCalls]
  | cons c cs ih =>
    rw [runCalls_cons, ih, add_result_results]
    simp
    omega

theorem runCalls_total_tests (r : TestReporter) (calls : List AddCall) :
    (runCalls r calls).test_summary.total_tests =
      r.test_summary.total_tests + calls.length := by
  induction calls generalizing r with
  | nil => simp [runCalls]
  | cons c cs ih =>
    rw [runCalls_cons, ih, add_result_total_tests]
    simp
    omega

theorem add_result_preserves_sum (r : TestReporter) (n st : String) (d : ℚ)
    (now : String) (e : Option String) (det : Option (List (String × Json)))
    (hst : st = "PASS" ∨ st = "FAIL" ∨ st = "SKIP")
    (hr : r.test_summary.total_tests =
      r.test_summary.passed + r.test_summary.failed + r.test_summary.skipped) :
    (r.add_result n st d now e det).test_summary.total_tests =
      (r.add_result n st d now e det).test_summary.passed +
      (r.add_result n st d now e det).test_summary.failed +
      (r.add_result n st d now e det).test_summary.skipped := by
  rcases hst with h | h | h <;> subst h <;>
    simp only [TestReporter.add_result]
  · simp
    omega
  · cases he : strTruthy e <;> simp [he] <;> omega
  · simp
    omega

theorem runCalls_preserves_sum (r : TestReporter) (calls : List AddCall)
    (hc : ∀ c ∈ calls, c.status = "PASS" ∨ c.status = "FAIL" ∨ c.status = "SKIP")
    (hr : r.test_summary.total_tests =
      r.test_summary.passed + r.test_summary.failed + r.test_summary.skipped) :
    (runCalls r calls).test_summary.total_tests =
      (runCalls r calls).test_summary.passed +
      (runCalls r calls).test_summary.failed +
      (runCalls r calls).test_summary.skipped := by
  induction calls generalizing r with
  | nil => exact hr
  | cons c cs ih =>
    rw [runCalls_cons]
    exact ih _ (fun x hx => hc x (List.mem_cons_of_mem _ hx))
      (add_result_preserves_sum r _ _ _ _ _ _ (hc c (List.mem_cons_self _ _)) hr)

theorem runCalls_details_some (r : TestReporter) (calls : List AddCall)
    (hr : ∀ out ∈ r.results, out.details ≠ none) :
    ∀ out ∈ (runCalls r calls).results, out.details ≠ none := by
  induction calls generalizing r with
  | nil => exact hr
  | cons c cs ih =>
    rw [runCalls_cons]
    refine ih _ ?_
    intro out hout
    rw [add_result_results] at hout
    rcases List.mem_append.mp hout with h | h
    · exact hr out h
    · rcases List.mem_singleton.mp h with rfl
      simp

/-! ### Concrete scenario (spec §8) shared by witnesses -/

/-- The spec's concrete scenario: `("login_test", PASS, 0.5)`,
`("checkout_test", FAIL, 1.2, "assert 200 == 404")`, `("logout_test", SKIP, 0.0)`. -/
def scenarioCalls : List AddCall :=
  [{ test_name := "login_test", status := "PASS", duration := 1 / 2,
     now := "n1", error := none, details := none },
   { test_name := "checkout_test", status := "FAIL", duration := 6 / 5,
     now := "n2", error := some "assert 200 == 404", details := none },
   { test_name := "logout_test", status := "SKIP", duration := 0,
     now := "n3", error := none, details := none }]

/-! ### Claims -/

/-- C1 (counterexample): the claimed invariant
`total_tests = passed + failed + skipped` fails for a status string outside
`PASS`/`FAIL`/`SKIP`: a single `add_result` with status `"ERROR"` yields a
summary with `total_tests = 1` but `passed + failed + skipped = 0`. -/
theorem total_ne_sum_on_unknown_status :
    ¬ (((runCalls (TestReporter.init "t0")
          [{ test_name := "boom", status := "ERROR", duration := 0, now := "n",
             error := none, details := none }]).generate_summary "n2").total_tests =
        ((runCalls (TestReporter.init "t0")
          [{ test_name := "boom", status := "ERROR", duration := 0, now := "n",
             error := none, details := none }]).generate_summary "n2").passed +
        ((runCalls (TestReporter.init "t0")
          [{ test_name := "boom", status := "ERROR", duration := 0, now := "n",
             error := none, details := none }]).generate_summary "n2").failed +
        ((runCalls (TestReporter.init "t0")
          [{ test_name := "boom", status := "ERROR", duration := 0, now := "n",
             error := none, details := none }]).generate_summary "n2").skipped) := by
  decide

/-- C1 (amended): for every sequence of `add_result` calls whose status is one
of `PASS`, `FAIL`, `SKIP`, the summary satisfies
`total_tests = passed + failed + skipped` exactly. (Statuses outside the three
enumerated values increment only `total_tests`, so the unrestricted claim is
false — see the counterexample.) -/
theorem summary_total_eq_sum_of_valid_statuses (t now : String)
    (calls : List AddCall)
    (hc : ∀ c ∈ calls, c.status = "PASS" ∨ c.status = "FAIL" ∨ c.status = "SKIP") :
    ((runCalls (TestReporter.init t) calls).generate_summary now).total_tests =
      ((runCalls (TestReporter.init t) calls).generate_summary now).passed +
      ((runCalls (TestReporter.init t) calls).generate_summary now).failed +
      ((runCalls (TestReporter.init t) calls).generate_summary now).skipped :=
  runCalls_preserves_sum (TestReporter.init t) calls hc rfl

/-- C1 witness: the amended invariant holds on the spec's concrete scenario. -/
theorem summary_total_eq_sum_witness :
    (∀ c ∈ scenarioCalls,
        c.status = "PASS" ∨ c.status = "FAIL" ∨ c.status = "SKIP") ∧
    ((runCalls (TestReporter.init "t0") scenarioCalls).generate_summary "n4").total_tests =
      ((runCalls (TestReporter.init "t0") scenarioCalls).generate_summary "n4").passed +
      ((runCalls (TestReporter.init "t0") scenarioCalls).generate_summary "n4").failed +
      ((runCalls (TestReporter.init "t0") scenarioCalls).generate_summary "n4").skipped :=
  ⟨by decide, summary_total_eq_sum_of_valid_statuses "t0" "n4" scenarioCalls (by decide)⟩

/-- C2 (counterexample): a `FAIL` with the non-null empty error string adds no
entry to `summary.errors` (Python's `if error:` is false on `""`), and a
`FAIL` with a null error adds no placeholder entry either — the errors list
stays empty in both cases, contradicting both halves of the claim. -/
theorem fail_error_entry_counterexample :
    ((TestReporter.init "t0").add_result "checkout_test" "FAIL" 1 "n"
        (some "") none).test_summary.errors = [] ∧
    ((TestReporter.init "t0").add_result "checkout_test" "FAIL" 1 "n"
        none none).test_summary.errors = [] := by
  exact ⟨rfl, rfl⟩

/-- C2 (amended): recording a `FAIL` with a non-null, non-empty error string
appends exactly the `(name, error)` pair to `summary.errors`; recording a
`FAIL` with a null or empty error does not crash and leaves the errors list
unchanged (no placeholder entry is added). -/
theorem fail_errors_append_iff_truthy (r : TestReporter) (n : String) (d : ℚ)
    (now : String) (e : Option String) (det : Option (List (String × Json))) :
    (r.add_result n "FAIL" d now e det).test_summary.errors =
      r.test_summary.errors ++
        (if strTruthy e then [{ test := n, error := e.getD "" }] else []) := by
  simp only [TestReporter.add_result]
  cases he : strTruthy e <;> simp [he]

/-- C3 (counterexample): a call with status `"ERROR"` (outside the enumerated
kinds) and a negative duration is not rejected: the outcome is stored verbatim
in `results` and `total_tests` is incremented, silently entering a
valid-looking summary. -/
theorem invalid_call_not_rejected :
    ((TestReporter.init "t0").add_result "weird_test" "ERROR" (-1) "n"
        none none).results =
      [{ test_name := "weird_test", status := "ERROR", duration := -1,
         timestamp := "n", error := none, details := some [] }] ∧
    ((TestReporter.init "t0").add_result "weird_test" "ERROR" (-1) "n"
        none none).test_summary.total_tests = 1 := by
  exact ⟨rfl, rfl⟩

/-- C3 (amended): `add_result` performs no validation at its boundary — every
call, whatever the status string (including values outside
`PASS`/`FAIL`/`SKIP`) and whatever the duration (including negative), appends
the outcome to `results` and increments `total_tests`; nothing is rejected or
raised. -/
theorem add_result_accepts_all (r : TestReporter) (n st : String) (d : ℚ)
    (now : String) (e : Option String) (det : Option (List (String × Json))) :
    (r.add_result n st d now e det).results =
      r.results ++ [{ test_name := n, status := st, duration := d,
                      timestamp := now, error := e,
                      details := some (det.getD []) }] ∧
    (r.add_result n st d now e det).test_summary.total_tests =
      r.test_summary.total_tests + 1 :=
  ⟨add_result_results r n st d now e det, add_result_total_tests r n st d now e det⟩

/-- C4: `generate_summary` on a reporter with zero recorded outcomes is a
total function (no exception in the model) returning `total_tests = 0`,
`pass_rate = 0` and `average_duration = 0`. -/
theorem generate_summary_empty (t now : String) :
    ((TestReporter.init t).generate_summary now).total_tests = 0 ∧
    ((TestReporter.init t).generate_summary now).pass_rate = 0 ∧
    ((TestReporter.init t).generate_summary now).average_duration = 0 :=
  ⟨rfl, rfl, rfl⟩

/-- C5: for every non-empty sequence of recorded outcomes, the summary's
`pass_rate` equals `passed / total_tests * 100` exactly (durations and rates
are modelled as exact rationals, so "exact to floating-point tolerance"
becomes exact equality). -/
theorem pass_rate_eq_ratio (t now : String) (calls : List AddCall)
    (hne : calls ≠ []) :
    ((runCalls (TestReporter.init t) calls).generate_summary now).pass_rate =
      (((runCalls (TestReporter.init t) calls).generate_summary now).passed : ℚ) /
        (((runCalls (TestReporter.init t) calls).generate_summary now).total_tests : ℚ) * 100 := by
  have hpos : 0 < (runCalls (TestReporter.init t) calls).test_summary.total_tests := by
    rw [runCalls_total_tests]
    have := List.length_pos.mpr hne
    omega
  simp only [TestReporter.generate_summary]
  rw [if_pos hpos]

/-- C5 witness: the pass-rate identity holds on the spec's concrete scenario
(three outcomes, one `PASS`). -/
theorem pass_rate_eq_ratio_witness :
    (scenarioCalls ≠ []) ∧
    ((runCalls (TestReporter.init "t0") scenarioCalls).generate_summary "n4").pass_rate =
      (((runCalls (TestReporter.init "t0") scenarioCalls).generate_summary "n4").passed : ℚ) /
        (((runCalls (TestReporter.init "t0") scenarioCalls).generate_summary "n4").total_tests : ℚ) * 100 :=
  ⟨by simp [scenarioCalls], pass_rate_eq_ratio "t0" "n4" scenarioCalls (by simp [scenarioCalls])⟩

/-- C6: persisting twice from the same in-memory state, with no intervening
`add_result`, yields two artifacts whose `results` arrays are element-wise
identical (whatever the two generation clock readings), and `save_results`
leaves the reporter state — in particular the accumulated outcome sequence —
unchanged. -/
theorem save_results_pure (r : TestReporter) (now1 now2 : String) :
    (r.save_results now1).1.results = (r.save_results now2).1.results ∧
    (r.save_results now1).2 = r :=
  ⟨rfl, rfl⟩

/-- C7: the persisted structured artifact is an object with a `summary` key
and a `results` key; the `results` value is the array of recorded outcomes in
insertion order; and decoding an encoded outcome reproduces every field
(`test_name`, `status`, `duration`, `timestamp`, `error`, `details` — the
`details` mapping being embedded verbatim, whatever its nesting). -/
theorem save_results_roundtrip (r : TestReporter) (now : String) :
    ((r.save_results now).1.toJson.getKey "summary") =
      some ((r.generate_summary now).toJson) ∧
    ((r.save_results now).1.toJson.getKey "results") =
      some (Json.arr (r.results.map TestResult.toJson)) ∧
    (r.save_results now).1.results = r.results ∧
    (∀ t : TestResult, TestResult.fromJson t.toJson = some t) := by
  refine ⟨rfl, rfl, rfl, ?_⟩
  intro t
  obtain ⟨n, st, d, ts, e, det⟩ := t
  cases e <;> cases det <;> rfl

/-- C8: `print_summary` is a total function of the reporter state (it cannot
raise in the model), and its failure section is truncated: at most 5 per-error
lines are emitted however long `summary.errors` is, and the whole output is a
bounded list of lines. -/
theorem print_summary_bounded (r : TestReporter) (now : String) :
    (errorLines ((r.generate_summary now).errors)).length ≤ 5 ∧
    (r.print_summary now).length ≤ 15 := by
  have h5 : (errorLines ((r.generate_summary now).errors)).length ≤ 5 := by
    simp [errorLines]
  refine ⟨h5, ?_⟩
  simp only [TestReporter.print_summary, List.length_append]
  split
  · simp
  · simp only [List.length_cons, List.length_nil]
    omega

/-- C9: after every sequence of `add_result` calls, whatever the arguments
(valid or not), `total_tests` equals the length of the accumulated `results`
list — so for a non-empty reporter the denominator of `average_duration`
(`len(results)`) and the denominator of `pass_rate` (`total_tests`) agree. -/
theorem total_tests_eq_results_length (t : String) (calls : List AddCall) :
    (runCalls (TestReporter.init t) calls).test_summary.total_tests =
      (runCalls (TestReporter.init t) calls).results.length := by
  rw [runCalls_total_tests, runCalls_results_length]
  rfl

/-- C10: no outcome in any reachable reporter state — hence none in a
persisted artifact — has a null `details` field, and a call with `details`
omitted/null stores the empty mapping (`details or \x7b\x7d`). -/
theorem details_never_none (t now : String) (calls : List AddCall) :
    (∀ out ∈ ((runCalls (TestReporter.init t) calls).save_results now).1.results,
        out.details ≠ none) ∧
    (∀ (r : TestReporter) (n st : String) (d : ℚ) (ts : String) (e : Option String),
      (r.add_result n st d ts e none).results =
        r.results ++ [{ test_name := n, status := st, duration := d,
                        timestamp := ts, error := e, details := some [] }]) := by
  constructor
  · exact runCalls_details_some _ _ (fun out h => nomatch h)
  · intro r n st d ts e
    rfl

/-- C10 witness: in the artifact persisted after one `add_result` with null
`details`, the stored outcome is a member of the `results` array and its
`details` field is the (non-null) empty mapping. -/
theorem details_never_none_witness :
    ((⟨"login_test", "PASS", 0, "ts", none, some []⟩ : TestResult) ∈
      ((runCalls (TestReporter.init "t0")
          [⟨"login_test", "PASS", 0, "ts", none, none⟩]).save_results "n").1.results) ∧
    (⟨"login_test", "PASS", 0, "ts", none, some []⟩ : TestResult).details ≠ none :=
  ⟨List.mem_cons_self _ _,
   (details_never_none "t0" "n" [⟨"login_test", "PASS", 0, "ts", none, none⟩]).1 _
     (List.mem_cons_self _ _)⟩
